import Mathlib

/-!
A shallow embedding of the serial transport shim in
`src/helium_client/_serial.c`, together with theorems about its observable
contract.  The C functions are modelled as pure Lean functions over an
explicit environment (`Env`, `ReadEnv`, `WriteEnv`, `PollEnv`) that records
the outcome of each underlying POSIX call, and every function additionally
returns the list of system-call requests (`Event`) it issues, in order, so
that properties about which calls are made (and which are not, e.g. no
`close` on a failure path) can be stated.

Machine integers: the C flag registers (`tcflag_t`) are 32-bit unsigned
integers; they are modelled as `Nat`, and the C idiom `x &= ~mask` is
modelled as `x &&& (2^32 - 1 - mask)`, which agrees with the C computation
on all 32-bit values.  The numeric constants are the Linux/glibc values of
the corresponding macros (the code targets Linux: see the comment
"B14400 does not exist on linux" in the source).
-/

namespace HeliumSerial

/-! ### Platform constants (Linux/glibc values) -/

def O_RDWR : Nat := 2
def O_NOCTTY : Nat := 256
def O_NONBLOCK : Nat := 2048

def TIOCEXCL : Nat := 21516
def F_SETFL : Nat := 4
def TCSANOW : Nat := 0

def CSIZE : Nat := 48
def CS8 : Nat := 48
def PARENB : Nat := 256
def CSTOPB : Nat := 64
def CRTSCTS : Nat := 2147483648
def CLOCAL : Nat := 2048
def CREAD : Nat := 128

def IGNBRK : Nat := 1
def BRKINT : Nat := 2
def PARMRK : Nat := 8
def ISTRIP : Nat := 32
def INLCR : Nat := 64
def IGNCR : Nat := 128
def ICRNL : Nat := 256
def IXON : Nat := 1024

def ECHO : Nat := 8
def ECHONL : Nat := 64
def ICANON : Nat := 2
def ISIG : Nat := 1
def IEXTEN : Nat := 32768

def OPOST : Nat := 1

def VTIME : Nat := 5
def VMIN : Nat := 6
def NCCS : Nat := 32

def POLLIN : Nat := 1

def B9600 : Nat := 13
def B19200 : Nat := 14
def B38400 : Nat := 15
def B57600 : Nat := 4097
def B115200 : Nat := 4098

def CBAUD : Nat := 4111
def CBAUDEX : Nat := 4096

/-- glibc's internal input-baud-zero marker bit in `c_iflag`. -/
def IBAUD0 : Nat := 2147483648

/-- Bitwise complement within a 32-bit register: the C expression `~m` at
type `tcflag_t` (32-bit unsigned) evaluates to `2^32 - 1 - m`. -/
def not32 (m : Nat) : Nat := 4294967295 - m

/-- The input-mode bits cleared by `_set_interface_attribs`. -/
def IFLAG_CLEAR : Nat :=
  IGNBRK ||| BRKINT ||| PARMRK ||| ISTRIP ||| INLCR ||| IGNCR ||| ICRNL ||| IXON

/-- The local-mode bits cleared by `_set_interface_attribs`. -/
def LFLAG_CLEAR : Nat := ECHO ||| ECHONL ||| ICANON ||| ISIG ||| IEXTEN

/-! ### Data model -/

/-- The POSIX `struct termios`, with the flag registers as `Nat` (32-bit
values in C) and the control-character array `c_cc` as a list (length
`NCCS` = 32 on Linux).  `c_ispeed`/`c_ospeed` hold the line speeds stored
by `cfsetispeed`/`cfsetospeed`. -/
structure Termios where
  c_iflag : Nat
  c_oflag : Nat
  c_cflag : Nat
  c_lflag : Nat
  c_cc : List Nat
  c_ispeed : Nat
  c_ospeed : Nat
deriving DecidableEq

/-- Modelled from the spec: `enum helium_baud` is declared in
`helium-client/helium-client.h`, which is not part of the sources here; the
spec describes it as a closed enumeration of the nominal rates
{9600, 14400, 19200, 38400, 57600, 115200}, and the `switch` in
`open_serial_port` names exactly these six enumerators. -/
inductive helium_baud where
  | b9600
  | b14400
  | b19200
  | b38400
  | b57600
  | b115200
deriving DecidableEq

/-- A system-call request issued by the shim, recorded in order. -/
inductive Event where
  | openReq (portname : String) (flags : Nat)
  | ioctlReq (fd : Int) (request : Nat)
  | fcntlReq (fd : Int) (cmd : Nat) (arg : Nat)
  | tcgetattrReq (fd : Int)
  | tcsetattrReq (fd : Int) (when : Nat) (tty : Termios)
  | closeReq (fd : Int)
  | readReq (fd : Int) (count : Nat)
  | writeReq (fd : Int) (count : Nat) (byte : Nat)
  | pollReq (fd : Int) (events : Nat) (timeout : Int)
  | usleepReq (us : Nat)
deriving DecidableEq

/-- Whether an event is a `close` request. -/
def Event.isClose : Event → Bool
  | .closeReq _ => true
  | _ => false

/-- Whether an event is a `tcsetattr` (attribute-commit) request. -/
def Event.isTcsetattr : Event → Bool
  | .tcsetattrReq _ _ _ => true
  | _ => false

/-- Outcomes of the OS calls made during `open_serial_port`:
`open_ret` is the descriptor returned by `open` (negative on failure),
`ioctl_ret`/`fcntl_ret`/`tcgetattr_ret`/`tcsetattr_ret` are the return
values of the corresponding calls, and `tty` is the attribute structure
delivered by a successful `tcgetattr`. -/
structure Env where
  open_ret : Int
  ioctl_ret : Int
  fcntl_ret : Int
  tcgetattr_ret : Int
  tty : Termios
  tcsetattr_ret : Int
deriving DecidableEq

/-! ### The embedded functions -/

/-- glibc `cfsetospeed` (the target libc): stores the output line speed in
`c_ospeed` and additionally rewrites the `CBAUD | CBAUDEX` field of
`c_cflag` with the speed constant.  (For speed arguments that are not
valid `Bxxx` constants glibc returns -1 without modifying the structure;
the shim only ever passes the constants produced by its baud switch, so
only the success transformation is modelled.) -/
def cfsetospeed (tty : Termios) (speed : Nat) : Termios :=
  { tty with
    c_ospeed := speed,
    c_cflag := (tty.c_cflag &&& not32 (CBAUD ||| CBAUDEX)) ||| speed }

/-- glibc `cfsetispeed`: stores the input line speed in `c_ispeed`; for a
zero speed it sets the `IBAUD0` marker in `c_iflag`, and for a nonzero
speed it clears `IBAUD0` and rewrites the `CBAUD | CBAUDEX` field of
`c_cflag` with the speed constant.  (Same validity remark as for
`cfsetospeed`.) -/
def cfsetispeed (tty : Termios) (speed : Nat) : Termios :=
  if speed = 0 then
    { tty with c_ispeed := speed, c_iflag := tty.c_iflag ||| IBAUD0 }
  else
    { tty with
      c_ispeed := speed,
      c_iflag := tty.c_iflag &&& not32 IBAUD0,
      c_cflag := (tty.c_cflag &&& not32 (CBAUD ||| CBAUDEX)) ||| speed }

/-- The pure transformation applied to the termios structure by
`_set_interface_attribs` between `tcgetattr` and `tcsetattr`, statement by
statement in source order. -/
def configure_termios (tty : Termios) (speed : Nat) : Termios :=
  let tty := cfsetospeed tty speed
  let tty := cfsetispeed tty speed
  let tty := { tty with c_cflag := tty.c_cflag ||| (CLOCAL ||| CREAD) }
  let tty := { tty with c_cflag := tty.c_cflag &&& not32 CSIZE }
  let tty := { tty with c_cflag := tty.c_cflag ||| CS8 }
  let tty := { tty with c_cflag := tty.c_cflag &&& not32 PARENB }
  let tty := { tty with c_cflag := tty.c_cflag &&& not32 CSTOPB }
  let tty := { tty with c_cflag := tty.c_cflag &&& not32 CRTSCTS }
  let tty := { tty with c_iflag := tty.c_iflag &&& not32 IFLAG_CLEAR }
  let tty := { tty with c_lflag := tty.c_lflag &&& not32 LFLAG_CLEAR }
  let tty := { tty with c_oflag := tty.c_oflag &&& not32 OPOST }
  let tty := { tty with c_cc := (tty.c_cc.set VMIN 1).set VTIME 1 }
  tty

/-- `_set_interface_attribs fd speed`: reads the current attributes with
`tcgetattr` (failure returns -1), applies `configure_termios`, and commits
the result with a single `tcsetattr … TCSANOW` call (failure returns -1);
returns 0 on success.  The result is paired with the list of issued
requests. -/
def set_interface_attribs (env : Env) (fd : Int) (speed : Nat) :
    Int × List Event :=
  if env.tcgetattr_ret < 0 then
    (-1, [Event.tcgetattrReq fd])
  else
    let tty := configure_termios env.tty speed
    if env.tcsetattr_ret ≠ 0 then
      (-1, [Event.tcgetattrReq fd, Event.tcsetattrReq fd TCSANOW tty])
    else
      (0, [Event.tcgetattrReq fd, Event.tcsetattrReq fd TCSANOW tty])

/-- The `switch (baud)` in `open_serial_port`: resolves the baud selector
to a line-speed constant.  The C variable is initialised to `B9600`, but
every enumerator has a `case`, so the initial value is never the result;
`helium_baud_b14400` falls through to the `helium_baud_b19200` case. -/
def resolve_baud (baud : helium_baud) : Nat :=
  match baud with
  | .b9600 => B9600
  | .b14400 => B19200
  | .b19200 => B19200
  | .b38400 => B38400
  | .b57600 => B57600
  | .b115200 => B115200

/-- `open_serial_port portname baud`: opens the device
(`O_RDWR | O_NOCTTY | O_NONBLOCK`), requests exclusive access
(`ioctl TIOCEXCL`), clears the file-status flags (`fcntl F_SETFL 0`),
resolves the baud selector and applies the line configuration via
`_set_interface_attribs`.  Any step's failure returns -1; success returns
the descriptor.  The result is paired with the list of issued requests. -/
def open_serial_port (env : Env) (portname : String) (baud : helium_baud) :
    Int × List Event :=
  let fd := env.open_ret
  if fd < 0 then
    (-1, [Event.openReq portname (O_RDWR ||| O_NOCTTY ||| O_NONBLOCK)])
  else if env.ioctl_ret < 0 then
    (-1, [Event.openReq portname (O_RDWR ||| O_NOCTTY ||| O_NONBLOCK),
          Event.ioctlReq fd TIOCEXCL])
  else if env.fcntl_ret < 0 then
    (-1, [Event.openReq portname (O_RDWR ||| O_NOCTTY ||| O_NONBLOCK),
          Event.ioctlReq fd TIOCEXCL, Event.fcntlReq fd F_SETFL 0])
  else
    let baud_rate := resolve_baud baud
    let sia := set_interface_attribs env fd baud_rate
    let tr := Event.openReq portname (O_RDWR ||| O_NOCTTY ||| O_NONBLOCK) ::
      Event.ioctlReq fd TIOCEXCL :: Event.fcntlReq fd F_SETFL 0 :: sia.2
    if sia.1 ≠ 0 then (-1, tr) else (fd, tr)

/-- `close_serial_port fd`: a single `close` call. -/
def close_serial_port (fd : Int) : Unit × List Event :=
  ((), [Event.closeReq fd])

/-- Outcome of the `read` call in `helium_serial_getc`: `ret` is the byte
count returned by `read` (negative on error), and `byte` is the value the
call stores in the buffer when it transfers a byte. -/
structure ReadEnv where
  ret : Int
  byte : Nat
deriving DecidableEq

/-- `helium_serial_getc`: issues `read(fd, ch, 1)` and returns
`read(...) > 0`.  The second component of the result is the contents of
the caller's one-byte buffer after the call: `read` stores a byte only
when it transfers one (its count argument is 1). -/
def helium_serial_getc (fd : Int) (env : ReadEnv) (ch : Nat) :
    (Bool × Nat) × List Event :=
  ((decide (0 < env.ret), if env.ret = 1 then env.byte else ch),
   [Event.readReq fd 1])

/-- Outcome of the `write` call in `helium_serial_putc`. -/
structure WriteEnv where
  ret : Int
deriving DecidableEq

/-- `helium_serial_putc`: issues `write(fd, &ch, 1)` and returns
`write(...) == 1`. -/
def helium_serial_putc (fd : Int) (env : WriteEnv) (ch : Nat) :
    Bool × List Event :=
  (decide (env.ret = 1), [Event.writeReq fd 1 ch])

/-- Outcome of the `poll` call in `helium_serial_readable`: `ret` is the
return value of `poll` and `revents` the condition mask it reports for the
single polled descriptor. -/
structure PollEnv where
  ret : Int
  revents : Nat
deriving DecidableEq

/-- `helium_serial_readable`: polls the single descriptor for `POLLIN`
with no timeout; if `poll` returned 1 the result is the C truth value of
`revents & POLLIN`, otherwise `false`. -/
def helium_serial_readable (fd : Int) (env : PollEnv) : Bool × List Event :=
  ((if env.ret = 1 then decide (env.revents &&& POLLIN ≠ 0) else false),
   [Event.pollReq fd POLLIN (-1)])

/-- `helium_wait_us`: discards its context parameter (`(void)param;`) and
issues a single `usleep(us)`. -/
def helium_wait_us (param : Int) (us : Nat) : Unit × List Event :=
  ((), [Event.usleepReq us])

/-- The line configuration the spec requires after a successful open:
8 data bits (`CSIZE` field = `CS8`), no parity, 1 stop bit, no hardware
flow control, local ownership of the line (`CLOCAL | CREAD` set),
raw/non-canonical mode (the listed input, local and output mode bits
cleared), and read granularity of 1 byte with a short inter-byte timeout
(`VMIN` = 1, `VTIME` = 1). -/
def config_applied (t : Termios) : Prop :=
  t.c_cflag &&& CSIZE = CS8 ∧
  t.c_cflag &&& PARENB = 0 ∧
  t.c_cflag &&& CSTOPB = 0 ∧
  t.c_cflag &&& CRTSCTS = 0 ∧
  t.c_cflag &&& (CLOCAL ||| CREAD) = CLOCAL ||| CREAD ∧
  t.c_iflag &&& IFLAG_CLEAR = 0 ∧
  t.c_lflag &&& LFLAG_CLEAR = 0 ∧
  t.c_oflag &&& OPOST = 0 ∧
  t.c_cc[VMIN]? = some 1 ∧
  t.c_cc[VTIME]? = some 1

/-- The `c_cflag` bits written by `_set_interface_attribs` (set or
cleared by its explicit flag operations, or rewritten with the speed
constant by `cfsetospeed`/`cfsetispeed`); all other `c_cflag` bits are
expected to be preserved. -/
def CFLAG_TOUCHED : Nat :=
  CLOCAL ||| CREAD ||| CSIZE ||| PARENB ||| CSTOPB ||| CRTSCTS |||
    CBAUD ||| CBAUDEX

/-- The `c_iflag` bits written by `_set_interface_attribs` (the cleared
raw-mode bits, plus `IBAUD0` written by `cfsetispeed`); all other
`c_iflag` bits are expected to be preserved. -/
def IFLAG_TOUCHED : Nat := IFLAG_CLEAR ||| IBAUD0

/-! ### Concrete sample data for witnesses -/

/-- A concrete termios structure with all fields zero and a full-length
(`NCCS` = 32) control-character array. -/
def tty0 : Termios :=
  { c_iflag := 0, c_oflag := 0, c_cflag := 0, c_lflag := 0,
    c_cc := List.replicate 32 0, c_ispeed := 0, c_ospeed := 0 }

/-- Outcomes where the initial `open` itself fails. -/
def envOpenFail : Env :=
  { open_ret := -1, ioctl_ret := 0, fcntl_ret := 0, tcgetattr_ret := 0,
    tty := tty0, tcsetattr_ret := 0 }

/-- Outcomes where `open` succeeds (descriptor 3) but the exclusive-access
`ioctl` fails. -/
def envIoctlFail : Env :=
  { open_ret := 3, ioctl_ret := -1, fcntl_ret := 0, tcgetattr_ret := 0,
    tty := tty0, tcsetattr_ret := 0 }

/-- Outcomes where every step succeeds (descriptor 3). -/
def envAllOk : Env :=
  { open_ret := 3, ioctl_ret := 0, fcntl_ret := 0, tcgetattr_ret := 0,
    tty := tty0, tcsetattr_ret := 0 }

/-! ### General bit lemmas -/

/-- A constant below `2^32` has no bits at positions 32 and above. -/
lemma testBit_ge32 (c i : Nat) (hc : c < 4294967296) (h32 : 32 ≤ i) :
    c.testBit i = false :=
  Nat.testBit_eq_false_of_lt
    (lt_of_lt_of_le hc (le_trans (by norm_num)
      (Nat.pow_le_pow_right (by norm_num) h32)))

/-- Every line-speed constant the baud switch can produce is nonzero (a
zero speed would take `cfsetispeed` into its `IBAUD0`-setting branch). -/
lemma resolve_baud_nonzero (b : helium_baud) : resolve_baud b ≠ 0 := by
  cases b <;> decide

/-- The termios transformation of `_set_interface_attribs` establishes the
full required line configuration, for every starting attribute set with a
full-length control-character array and every nonzero speed. -/
lemma configure_termios_applied (tty : Termios) (speed : Nat)
    (hs : speed ≠ 0) (hcc : tty.c_cc.length = NCCS) :
    config_applied (configure_termios tty speed) := by
  simp only [NCCS] at hcc
  have eC : (2048 ||| 128 : Nat) = 2176 := by decide
  have eI : (1 ||| 2 ||| 8 ||| 32 ||| 64 ||| 128 ||| 256 ||| 1024 : Nat) =
    1515 := by decide
  have eL : (8 ||| 64 ||| 2 ||| 1 ||| 32768 : Nat) = 32843 := by decide
  have eM : CBAUD ||| CBAUDEX = (4111 : Nat) := by decide
  simp only [config_applied, configure_termios, cfsetospeed, cfsetispeed,
    if_neg hs, CSIZE, CS8, PARENB, CSTOPB, CRTSCTS, CLOCAL, CREAD, IBAUD0,
    IFLAG_CLEAR, LFLAG_CLEAR, OPOST, IGNBRK, BRKINT, PARMRK, ISTRIP,
    INLCR, IGNCR, ICRNL, IXON, ECHO, ECHONL, ICANON, ISIG, IEXTEN, VMIN,
    VTIME, eC, eI, eL, eM]
  refine ⟨?_, ?_, ?_, ?_, ?_, ?_, ?_, ?_, ?_, ?_⟩
  case refine_9 =>
    rw [List.getElem?_set_ne (by decide), List.getElem?_set_self (by omega)]
  case refine_10 =>
    rw [List.getElem?_set_self (by simp [hcc])]
  all_goals
    apply Nat.eq_of_testBit_eq
    intro i
    rcases Nat.lt_or_ge i 32 with h | h
    · simp only [not32, Nat.testBit_land, Nat.testBit_lor]
      interval_cases i <;> norm_num [Nat.testBit_to_div_mod]
    · have hb : ∀ c : Nat, c < 4294967296 → Nat.testBit c i = false :=
        fun c hcb => testBit_ge32 c i hcb h
      simp only [not32, Nat.testBit_land, Nat.testBit_lor]
      simp [hb]

/-! ### Theorems about the claims -/

/-- C1: for every supported baud selector except the legacy 14400 one, the
baud `switch` of `open_serial_port` resolves the selector to the platform
line-speed constant of exactly that nominal speed, and the 14400 selector
resolves to the 19200 constant. -/
theorem resolve_baud_matches_platform_constants :
    resolve_baud .b9600 = B9600 ∧ resolve_baud .b19200 = B19200 ∧
    resolve_baud .b38400 = B38400 ∧ resolve_baud .b57600 = B57600 ∧
    resolve_baud .b115200 = B115200 ∧ resolve_baud .b14400 = B19200 :=
  ⟨rfl, rfl, rfl, rfl, rfl, rfl⟩

/-- C4: `helium_serial_getc` issues exactly one read request for exactly
one byte, returns true iff exactly one byte was transferred (given the
POSIX guarantee that `read` transfers at most the requested count, here 1),
and when it returns true the delivered byte is the byte the read produced,
never a fabricated value. -/
theorem helium_serial_getc_exactly_one_byte (fd : Int) (env : ReadEnv)
    (ch : Nat) (hle : env.ret ≤ 1) :
    ((helium_serial_getc fd env ch).1.1 = true ↔ env.ret = 1) ∧
    ((helium_serial_getc fd env ch).1.1 = true →
      (helium_serial_getc fd env ch).1.2 = env.byte) ∧
    (helium_serial_getc fd env ch).2 = [Event.readReq fd 1] := by
  refine ⟨?_, ?_, rfl⟩
  · simp only [helium_serial_getc, decide_eq_true_eq]
    omega
  · intro h
    simp only [helium_serial_getc, decide_eq_true_eq] at h ⊢
    have : env.ret = 1 := by omega
    simp [this]

/-- C4, witness: the success case at a concrete read outcome. -/
theorem helium_serial_getc_exactly_one_byte_witness :
    (({ ret := 1, byte := 65 } : ReadEnv).ret ≤ 1) ∧
    ((helium_serial_getc 3 { ret := 1, byte := 65 } 0).1.1 = true ↔
      ({ ret := 1, byte := 65 } : ReadEnv).ret = 1) ∧
    ((helium_serial_getc 3 { ret := 1, byte := 65 } 0).1.1 = true →
      (helium_serial_getc 3 { ret := 1, byte := 65 } 0).1.2 =
        ({ ret := 1, byte := 65 } : ReadEnv).byte) ∧
    (helium_serial_getc 3 { ret := 1, byte := 65 } 0).2 =
      [Event.readReq 3 1] :=
  ⟨by decide,
   helium_serial_getc_exactly_one_byte 3 { ret := 1, byte := 65 } 0 (by decide)⟩

/-- C5: `helium_serial_putc` issues exactly one write request for exactly
one byte and returns true iff the write transferred exactly one byte; any
other outcome yields false. -/
theorem helium_serial_putc_exactly_one_byte (fd : Int) (env : WriteEnv)
    (ch : Nat) :
    ((helium_serial_putc fd env ch).1 = true ↔ env.ret = 1) ∧
    (helium_serial_putc fd env ch).2 = [Event.writeReq fd 1 ch] :=
  ⟨by simp [helium_serial_putc], rfl⟩

/-- C6: `helium_serial_readable` returns true exactly when `poll` reports
one ready descriptor with `POLLIN` among the returned conditions; in
particular it is false on any polling error and false when the reported
conditions exclude `POLLIN`. -/
theorem helium_serial_readable_pollin (fd : Int) (env : PollEnv) :
    ((helium_serial_readable fd env).1 = true ↔
      (env.ret = 1 ∧ env.revents &&& POLLIN ≠ 0)) ∧
    (env.ret < 0 → (helium_serial_readable fd env).1 = false) ∧
    (env.revents &&& POLLIN = 0 → (helium_serial_readable fd env).1 = false) ∧
    (helium_serial_readable fd env).2 = [Event.pollReq fd POLLIN (-1)] := by
  refine ⟨?_, ?_, ?_, rfl⟩
  · by_cases h : env.ret = 1 <;> simp [helium_serial_readable, h]
  · intro hlt
    have h : ¬ env.ret = 1 := by omega
    simp [helium_serial_readable, h]
  · intro hz
    by_cases h : env.ret = 1 <;> simp [helium_serial_readable, h, hz]

/-- C6, witness: a failed poll at a concrete environment. -/
theorem helium_serial_readable_pollin_witness :
    ((helium_serial_readable 3 { ret := -1, revents := 0 }).1 = true ↔
      (({ ret := -1, revents := 0 } : PollEnv).ret = 1 ∧
        ({ ret := -1, revents := 0 } : PollEnv).revents &&& POLLIN ≠ 0)) ∧
    (helium_serial_readable 3 { ret := -1, revents := 0 }).1 = false ∧
    (helium_serial_readable 3 { ret := -1, revents := 0 }).1 = false ∧
    (helium_serial_readable 3 { ret := -1, revents := 0 }).2 =
      [Event.pollReq 3 POLLIN (-1)] := by
  obtain ⟨h1, h2, h3, h4⟩ := helium_serial_readable_pollin 3 { ret := -1, revents := 0 }
  exact ⟨h1, h2 (by decide), h3 (by decide), h4⟩

/-- C3: `open_serial_port` returns either a non-negative handle (the
descriptor delivered by `open`) or the invalid-handle sentinel -1, and
whenever any of its steps fails the result is the sentinel, never a
valid-looking handle. -/
theorem open_serial_port_returns_sentinel_on_failure (env : Env)
    (p : String) (b : helium_baud) :
    ((open_serial_port env p b).1 = -1 ∨
      (0 ≤ (open_serial_port env p b).1 ∧
        (open_serial_port env p b).1 = env.open_ret)) ∧
    ((env.open_ret < 0 ∨ env.ioctl_ret < 0 ∨ env.fcntl_ret < 0 ∨
        env.tcgetattr_ret < 0 ∨ env.tcsetattr_ret ≠ 0) →
      (open_serial_port env p b).1 = -1) := by
  simp only [open_serial_port, set_interface_attribs]
  split_ifs <;> simp_all

/-- C3, witness: opening an invalid path (the `open` call fails) at 9600
yields the sentinel. -/
theorem open_serial_port_returns_sentinel_on_failure_witness :
    envOpenFail.open_ret < 0 ∧
    (open_serial_port envOpenFail "/dev/does-not-exist" .b9600).1 = -1 :=
  ⟨by decide,
   (open_serial_port_returns_sentinel_on_failure envOpenFail
      "/dev/does-not-exist" .b9600).2 (Or.inl (by decide))⟩

/-- C7: when `open_serial_port` fails at a step after the device was
already opened, it returns the sentinel without ever issuing a `close`
request: the descriptor is left open on these failure paths. -/
theorem open_serial_port_no_close_on_failure (env : Env) (p : String)
    (b : helium_baud) (hopen : 0 ≤ env.open_ret)
    (hfail : env.ioctl_ret < 0 ∨ env.fcntl_ret < 0 ∨
      env.tcgetattr_ret < 0 ∨ env.tcsetattr_ret ≠ 0) :
    (open_serial_port env p b).1 = -1 ∧
    ∀ e ∈ (open_serial_port env p b).2, e.isClose = false := by
  simp only [open_serial_port, set_interface_attribs]
  split_ifs <;> simp_all [Event.isClose]

/-- C7, witness: exclusive-access `ioctl` failure after a successful open:
sentinel result and no `close` request issued. -/
theorem open_serial_port_no_close_on_failure_witness :
    0 ≤ envIoctlFail.open_ret ∧
    (open_serial_port envIoctlFail "/dev/ttyUSB0" .b9600).1 = -1 ∧
    ∀ e ∈ (open_serial_port envIoctlFail "/dev/ttyUSB0" .b9600).2,
      e.isClose = false :=
  ⟨by decide,
   open_serial_port_no_close_on_failure envIoctlFail "/dev/ttyUSB0" .b9600
     (by decide) (Or.inl (by decide))⟩

/-- C9: on every successful open, the full line configuration is applied
through a single attribute-commit (`tcsetattr`) call — the issued requests
are exactly open, exclusive-access ioctl, fcntl, one attribute read and
one attribute commit carrying the fully configured attributes — and any
failure of the attribute read or commit makes `open_serial_port` fail. -/
theorem open_serial_port_applies_config (env : Env) (p : String)
    (b : helium_baud) (h1 : 0 ≤ env.open_ret) (h2 : 0 ≤ env.ioctl_ret)
    (h3 : 0 ≤ env.fcntl_ret) (h4 : 0 ≤ env.tcgetattr_ret)
    (h5 : env.tcsetattr_ret = 0) (hcc : env.tty.c_cc.length = NCCS) :
    (open_serial_port env p b).2 =
      [Event.openReq p (O_RDWR ||| O_NOCTTY ||| O_NONBLOCK),
       Event.ioctlReq env.open_ret TIOCEXCL,
       Event.fcntlReq env.open_ret F_SETFL 0,
       Event.tcgetattrReq env.open_ret,
       Event.tcsetattrReq env.open_ret TCSANOW
         (configure_termios env.tty (resolve_baud b))] ∧
    ((open_serial_port env p b).2.countP (fun e => e.isTcsetattr)) = 1 ∧
    config_applied (configure_termios env.tty (resolve_baud b)) ∧
    (∀ env2 : Env, (env2.tcgetattr_ret < 0 ∨ env2.tcsetattr_ret ≠ 0) →
      (open_serial_port env2 p b).1 = -1) := by
  have h1' : ¬ env.open_ret < 0 := by omega
  have h2' : ¬ env.ioctl_ret < 0 := by omega
  have h3' : ¬ env.fcntl_ret < 0 := by omega
  have h4' : ¬ env.tcgetattr_ret < 0 := by omega
  refine ⟨?_, ?_, ?_, ?_⟩
  · simp [open_serial_port, set_interface_attribs, h1', h2', h3', h4', h5]
  · simp [open_serial_port, set_interface_attribs, h1', h2', h3', h4', h5,
      Event.isTcsetattr]
  · exact configure_termios_applied env.tty (resolve_baud b)
      (resolve_baud_nonzero b) hcc
  · intro env2 hf
    simp only [open_serial_port, set_interface_attribs]
    split_ifs <;> simp_all

/-- C9, witness: a fully successful open at 19200 with the all-zero
starting attributes. -/
theorem open_serial_port_applies_config_witness :
    (0 ≤ envAllOk.open_ret ∧ 0 ≤ envAllOk.ioctl_ret ∧
     0 ≤ envAllOk.fcntl_ret ∧ 0 ≤ envAllOk.tcgetattr_ret ∧
     envAllOk.tcsetattr_ret = 0 ∧ envAllOk.tty.c_cc.length = NCCS) ∧
    ((open_serial_port envAllOk "/dev/ttyUSB0" .b19200).2 =
      [Event.openReq "/dev/ttyUSB0" (O_RDWR ||| O_NOCTTY ||| O_NONBLOCK),
       Event.ioctlReq envAllOk.open_ret TIOCEXCL,
       Event.fcntlReq envAllOk.open_ret F_SETFL 0,
       Event.tcgetattrReq envAllOk.open_ret,
       Event.tcsetattrReq envAllOk.open_ret TCSANOW
         (configure_termios envAllOk.tty (resolve_baud .b19200))] ∧
     ((open_serial_port envAllOk "/dev/ttyUSB0" .b19200).2.countP
       (fun e => e.isTcsetattr)) = 1 ∧
     config_applied (configure_termios envAllOk.tty (resolve_baud .b19200)) ∧
     (∀ env2 : Env, (env2.tcgetattr_ret < 0 ∨ env2.tcsetattr_ret ≠ 0) →
       (open_serial_port env2 "/dev/ttyUSB0" .b19200).1 = -1)) :=
  ⟨⟨by decide, by decide, by decide, by decide, by decide, by decide⟩,
   open_serial_port_applies_config envAllOk "/dev/ttyUSB0" .b19200
     (by decide) (by decide) (by decide) (by decide) (by decide) (by decide)⟩

/-- C8: the behaviour of `helium_wait_us` depends only on the microseconds
argument: any two context values give observationally identical calls
(same result, same issued requests). -/
theorem helium_wait_us_context_irrelevant (p1 p2 : Int) (us : Nat) :
    helium_wait_us p1 us = helium_wait_us p2 us := rfl

/-- C10, counterexample: the claim that every termios field other than the
named mode bits and `VMIN`/`VTIME` is left at its previously-read value is
false: starting from the all-zero attributes, the output-speed field is
changed (by `cfsetospeed`) to the requested speed. -/
theorem configure_termios_changes_speed_field :
    (configure_termios tty0 B9600).c_ospeed ≠ tty0.c_ospeed := by decide

/-- C10 (amended): for the nonzero, `CBAUD`-valid speeds the shim passes,
the line-configuration step starts from the read attributes and modifies
only the named `c_cflag`/`c_iflag`/`c_lflag`/`c_oflag` bits (where the
touched `c_cflag` bits include the `CBAUD | CBAUDEX` field, rewritten with
the speed constant by `cfsetospeed`/`cfsetispeed`, and the touched
`c_iflag` bits include `IBAUD0`, which is cleared), the `VMIN` and `VTIME`
control characters, and the input and output speed fields, which are set
to the requested speed; every other bit of the four 32-bit mode registers
and every other `c_cc` entry keeps its previously-read value. -/
theorem configure_termios_frame (tty : Termios) (speed : Nat)
    (hs : speed ≠ 0) (hsp : speed &&& (CBAUD ||| CBAUDEX) = speed) :
    ((configure_termios tty speed).c_ispeed = speed ∧
     (configure_termios tty speed).c_ospeed = speed ∧
     (configure_termios tty speed).c_cflag &&& (CBAUD ||| CBAUDEX) =
       speed ∧
     (configure_termios tty speed).c_iflag &&& IBAUD0 = 0) ∧
    (∀ i, i < 32 → CFLAG_TOUCHED.testBit i = false →
      (configure_termios tty speed).c_cflag.testBit i =
        tty.c_cflag.testBit i) ∧
    (∀ i, i < 32 → IFLAG_TOUCHED.testBit i = false →
      (configure_termios tty speed).c_iflag.testBit i =
        tty.c_iflag.testBit i) ∧
    (∀ i, i < 32 → LFLAG_CLEAR.testBit i = false →
      (configure_termios tty speed).c_lflag.testBit i =
        tty.c_lflag.testBit i) ∧
    (∀ i, i < 32 → OPOST.testBit i = false →
      (configure_termios tty speed).c_oflag.testBit i =
        tty.c_oflag.testBit i) ∧
    (∀ j, j ≠ VMIN → j ≠ VTIME →
      (configure_termios tty speed).c_cc[j]? = tty.c_cc[j]?) := by
  have eM : CBAUD ||| CBAUDEX = (4111 : Nat) := by decide
  have hs' : ¬ speed &&& (CBAUD ||| CBAUDEX) = 0 := by rw [hsp]; exact hs
  have hspM : speed &&& (4111 : Nat) = speed := by rw [← eM]; exact hsp
  have hs4 : ¬ speed &&& (4111 : Nat) = 0 := by rw [hspM]; exact hs
  refine ⟨⟨?_, ?_, ?_, ?_⟩, ?_, ?_, ?_, ?_, ?_⟩
  · simp [configure_termios, cfsetospeed, cfsetispeed, hs]
  · simp [configure_termios, cfsetospeed, cfsetispeed, hs]
  · rw [← hsp]
    have eC : (2048 ||| 128 : Nat) = 2176 := by decide
    simp only [configure_termios, cfsetospeed, cfsetispeed, if_neg hs',
      if_neg hs4, CLOCAL, CREAD, CSIZE, CS8, PARENB, CSTOPB, CRTSCTS, eC,
      eM, not32]
    apply Nat.eq_of_testBit_eq
    intro i
    rcases Nat.lt_or_ge i 32 with h | h
    · simp only [Nat.testBit_land, Nat.testBit_lor]
      interval_cases i <;> norm_num [Nat.testBit_to_div_mod]
    · have hb : ∀ c : Nat, c < 4294967296 → Nat.testBit c i = false :=
        fun c hcb => testBit_ge32 c i hcb h
      simp only [Nat.testBit_land, Nat.testBit_lor]
      simp [hb]
  · simp only [configure_termios, cfsetospeed, cfsetispeed, if_neg hs,
      IBAUD0, IFLAG_CLEAR, IGNBRK, BRKINT, PARMRK, ISTRIP, INLCR, IGNCR,
      ICRNL, IXON, not32]
    apply Nat.eq_of_testBit_eq
    intro i
    rcases Nat.lt_or_ge i 32 with h | h
    · simp only [Nat.testBit_land, Nat.testBit_lor]
      interval_cases i <;> norm_num [Nat.testBit_to_div_mod]
    · have hb : ∀ c : Nat, c < 4294967296 → Nat.testBit c i = false :=
        fun c hcb => testBit_ge32 c i hcb h
      simp only [Nat.testBit_land, Nat.testBit_lor]
      simp [hb]
  · intro i hi hm
    have eC : (2048 ||| 128 : Nat) = 2176 := by decide
    simp only [CFLAG_TOUCHED, CLOCAL, CREAD, CSIZE, PARENB, CSTOPB,
      CRTSCTS, CBAUD, CBAUDEX, Nat.testBit_lor] at hm
    rw [← hsp]
    simp only [configure_termios, cfsetospeed, cfsetispeed, if_neg hs',
      if_neg hs4, CLOCAL, CREAD, CSIZE, CS8, PARENB, CSTOPB, CRTSCTS, eC,
      eM, not32, Nat.testBit_land, Nat.testBit_lor]
    interval_cases i <;> norm_num [Nat.testBit_to_div_mod] at hm ⊢
  · intro i hi hm
    have eI : (1 ||| 2 ||| 8 ||| 32 ||| 64 ||| 128 ||| 256 ||| 1024 :
      Nat) = 1515 := by decide
    simp only [IFLAG_TOUCHED, IFLAG_CLEAR, IBAUD0, IGNBRK, BRKINT,
      PARMRK, ISTRIP, INLCR, IGNCR, ICRNL, IXON, Nat.testBit_lor] at hm
    simp only [configure_termios, cfsetospeed, cfsetispeed, if_neg hs,
      IFLAG_CLEAR, IBAUD0, IGNBRK, BRKINT, PARMRK, ISTRIP, INLCR, IGNCR,
      ICRNL, IXON, eI, not32, Nat.testBit_land, Nat.testBit_lor]
    interval_cases i <;> norm_num [Nat.testBit_to_div_mod] at hm ⊢
  · intro i hi hm
    have eL : (8 ||| 64 ||| 2 ||| 1 ||| 32768 : Nat) = 32843 := by decide
    simp only [LFLAG_CLEAR, ECHO, ECHONL, ICANON, ISIG, IEXTEN,
      Nat.testBit_lor] at hm
    simp only [configure_termios, cfsetospeed, cfsetispeed, if_neg hs,
      LFLAG_CLEAR, ECHO, ECHONL, ICANON, ISIG, IEXTEN, eL, not32,
      Nat.testBit_land, Nat.testBit_lor]
    interval_cases i <;> norm_num [Nat.testBit_to_div_mod] at hm ⊢
  · intro i hi hm
    simp only [OPOST] at hm
    simp only [configure_termios, cfsetospeed, cfsetispeed, if_neg hs,
      OPOST, not32, Nat.testBit_land, Nat.testBit_lor]
    interval_cases i <;> norm_num [Nat.testBit_to_div_mod] at hm ⊢
  · intro j hj6 hj5
    simp only [VMIN, VTIME] at hj6 hj5
    simp only [configure_termios, cfsetospeed, cfsetispeed, if_neg hs,
      VMIN, VTIME]
    rw [List.getElem?_set_ne (Ne.symm hj5), List.getElem?_set_ne
      (Ne.symm hj6)]

/-- C10 (amended), witness: at the 9600 constant (nonzero and within
`CBAUD`), concrete untouched bit positions of each register and a control
character other than `VMIN`/`VTIME` survive the configuration of the
all-zero attributes, the speed fields and the `CBAUD` field carry the
constant, and `IBAUD0` is clear. -/
theorem configure_termios_frame_witness :
    ((13 : Nat) ≠ 0 ∧ (13 : Nat) &&& (CBAUD ||| CBAUDEX) = 13) ∧
    ((configure_termios tty0 13).c_ispeed = 13 ∧
     (configure_termios tty0 13).c_ospeed = 13 ∧
     (configure_termios tty0 13).c_cflag &&& (CBAUD ||| CBAUDEX) = 13 ∧
     (configure_termios tty0 13).c_iflag &&& IBAUD0 = 0) ∧
    ((9 : Nat) < 32 ∧ CFLAG_TOUCHED.testBit 9 = false ∧
      (configure_termios tty0 13).c_cflag.testBit 9 =
        tty0.c_cflag.testBit 9) ∧
    ((2 : Nat) < 32 ∧ IFLAG_TOUCHED.testBit 2 = false ∧
      (configure_termios tty0 13).c_iflag.testBit 2 =
        tty0.c_iflag.testBit 2) ∧
    ((2 : Nat) < 32 ∧ LFLAG_CLEAR.testBit 2 = false ∧
      (configure_termios tty0 13).c_lflag.testBit 2 =
        tty0.c_lflag.testBit 2) ∧
    ((1 : Nat) < 32 ∧ OPOST.testBit 1 = false ∧
      (configure_termios tty0 13).c_oflag.testBit 1 =
        tty0.c_oflag.testBit 1) ∧
    ((0 : Nat) ≠ VMIN ∧ (0 : Nat) ≠ VTIME ∧
      (configure_termios tty0 13).c_cc[(0 : Nat)]? = tty0.c_cc[(0 : Nat)]?) :=
  ⟨⟨by decide, by decide⟩,
   (configure_termios_frame tty0 13 (by decide) (by decide)).1,
   ⟨by decide, by decide,
    (configure_termios_frame tty0 13 (by decide) (by decide)).2.1 9
      (by decide) (by decide)⟩,
   ⟨by decide, by decide,
    (configure_termios_frame tty0 13 (by decide) (by decide)).2.2.1 2
      (by decide) (by decide)⟩,
   ⟨by decide, by decide,
    (configure_termios_frame tty0 13 (by decide) (by decide)).2.2.2.1 2
      (by decide) (by decide)⟩,
   ⟨by decide, by decide,
    (configure_termios_frame tty0 13 (by decide) (by decide)).2.2.2.2.1 1
      (by decide) (by decide)⟩,
   ⟨by decide, by decide,
    (configure_termios_frame tty0 13 (by decide) (by decide)).2.2.2.2.2 0
      (by decide) (by decide)⟩⟩

end HeliumSerial
